import Mathlib

/-!
Verification of the natural-language specification of `pep634.py`, a script
demonstrating PEP 634 structural pattern matching through a series of
classifier functions.  The Python values the classifiers receive are embedded
as the inductive type `PyVal`; each classifier is translated, case by case and
in source order, into a Lean function over that type.  Python's `match`
statement selects the first case whose pattern (and guard, when present)
matches, so each translated function is an ordered cascade mirroring the
source cases.  A function body that can raise is given the result type
`PyResult`, which distinguishes a returned value, the implicit `None` returned
when every case of a `match` fails, and a raised exception.
-/

/-- Embedding of the Python values the demonstration classifiers receive:
integers, booleans, strings, sequences (`seq` stands for both `list` and
`tuple`, which PEP 634 sequence patterns treat alike), string-keyed
dictionaries in insertion order (every dict key in the source is a string
literal), and `None`. -/
inductive PyVal where
  | int (n : Int)
  | bool (b : Bool)
  | str (s : String)
  | seq (xs : List PyVal)
  | dict (entries : List (String × PyVal))
  | noneV
deriving Repr

mutual

/-- Python `==` on embedded values: `bool` compares numerically with `int`
(Python's `bool` is an `int` subtype), strings and `None` structurally,
sequences elementwise, and dictionaries entrywise (the source's dicts are in
insertion order with distinct keys). -/
def pyEq : PyVal → PyVal → Bool
  | .int m, .int n => m == n
  | .int m, .bool b => m == (if b then (1 : Int) else 0)
  | .bool b, .int n => (if b then (1 : Int) else 0) == n
  | .bool a, .bool b => a == b
  | .str s, .str t => s == t
  | .noneV, .noneV => true
  | .seq xs, .seq ys => pyEqList xs ys
  | .dict d, .dict e => pyEqDict d e
  | _, _ => false

/-- Elementwise Python `==` on sequences. -/
def pyEqList : List PyVal → List PyVal → Bool
  | [], [] => true
  | x :: xs, y :: ys => pyEq x y && pyEqList xs ys
  | _, _ => false

/-- Entrywise Python `==` on dictionaries. -/
def pyEqDict : List (String × PyVal) → List (String × PyVal) → Bool
  | [], [] => true
  | (k, v) :: kvs, (l, w) :: lws => k == l && pyEq v w && pyEqDict kvs lws
  | _, _ => false

end

mutual

/-- Python `repr` of an embedded value (sequences rendered with brackets,
strings quoted). -/
def pyRepr : PyVal → String
  | .int n => toString n
  | .bool b => if b then "True" else "False"
  | .str s => "\x27" ++ s ++ "\x27"
  | .seq xs => "[" ++ pyReprList xs ++ "]"
  | .dict d => "\x7b" ++ pyReprDict d ++ "\x7d"
  | .noneV => "None"

/-- Comma-separated `repr` of sequence elements. -/
def pyReprList : List PyVal → String
  | [] => ""
  | [v] => pyRepr v
  | v :: vs => pyRepr v ++ ", " ++ pyReprList vs

/-- Comma-separated `repr` of dictionary entries. -/
def pyReprDict : List (String × PyVal) → String
  | [] => ""
  | [(k, v)] => "\x27" ++ k ++ "\x27: " ++ pyRepr v
  | (k, v) :: kvs => "\x27" ++ k ++ "\x27: " ++ pyRepr v ++ ", " ++ pyReprDict kvs

end

/-- Python `str()` of an embedded value, as used by the source's f-strings:
the identity on strings, `repr`-style rendering otherwise. -/
def pyStr : PyVal → String
  | .str s => s
  | v => pyRepr v

/-- Dictionary key lookup (`d[k]` / mapping-pattern key test), searching the
entries in insertion order. -/
def dictGet : List (String × PyVal) → String → Option PyVal
  | [], _ => Option.none
  | (k, v) :: rest, key => if k = key then some v else dictGet rest key

/-- The entries remaining after removing the given keys, in order: the
dictionary captured by a `**rest` pattern. -/
def dictRemove (d : List (String × PyVal)) (keys : List String) : List (String × PyVal) :=
  d.filter (fun kv => !(keys.contains kv.1))

/-- Python's `c in s` membership test for a single-character string `c` (the
only needles the source uses are `"@"` and `"="`): substring test on strings,
elementwise `==` on sequences, key membership on dictionaries, and a
`TypeError` (`Option.none`) on the remaining types. -/
def pyContainsChar : PyVal → Char → Option Bool
  | .str s, c => some (s.data.contains c)
  | .seq xs, c => some (xs.any (fun v => pyEq v (.str (String.singleton c))))
  | .dict d, c => some (d.any (fun kv => kv.1 = String.singleton c))
  | _, _ => Option.none

/-- Membership test `c ∈ s` on an embedded string, `Char`-valued needle. -/
def strContainsChar (s : String) (c : Char) : Bool :=
  s.data.contains c

/-- The numeric value of an embedded Python value under arithmetic
comparisons: `int` itself, `bool` as `0`/`1` (Python's `bool` subtypes
`int`), and no value (a `TypeError`) otherwise. -/
def pyNum? : PyVal → Option Int
  | .int n => some n
  | .bool b => some (if b then 1 else 0)
  | _ => Option.none

/-- Outcome of calling one of the embedded Python functions: a returned
value, the implicit `None` a `match` statement yields when no case matches
(`noneRet`), or a raised exception (`exn`). -/
inductive PyResult (α : Type) where
  | ok (a : α)
  | noneRet
  | exn
deriving Repr, DecidableEq

/-- `get_status_message` (pep634.py lines 23-32): literal `match` on an HTTP
status code with a trailing wildcard case. -/
def get_status_message (code : Int) : String :=
  match code with
  | 200 => "✅ OK - Succès"
  | 404 => "❌ Not Found - Page introuvable"
  | 500 => "🔥 Internal Server Error"
  | _ => "❓ Code inconnu: " ++ toString code

/-- The code points Python's `str.isspace` holds of — the set the
argumentless `str.split` splits on: the ASCII whitespace controls `\t`-`\r`,
the separator controls `\x1c`-`\x1f`, the space, and the Unicode space and
line/paragraph separators. -/
def pySplitSpace (c : Char) : Bool :=
  let n := c.toNat
  (9 ≤ n && n ≤ 13) || (28 ≤ n && n ≤ 31) || n == 32 || n == 0x85 || n == 0xA0 ||
  n == 0x1680 || (0x2000 ≤ n && n ≤ 0x200A) || n == 0x2028 || n == 0x2029 ||
  n == 0x202F || n == 0x205F || n == 0x3000

/-- The code points `int()` strips around a numeral: the Unicode white-space
property, which is `str.split`'s set without the separator controls
`\x1c`-`\x1f` (so `int("\x1c7")` raises while `"a\x1cb".split()` splits). -/
def pyIntSpace (c : Char) : Bool :=
  let n := c.toNat
  (9 ≤ n && n ≤ 13) || n == 32 || n == 0x85 || n == 0xA0 ||
  n == 0x1680 || (0x2000 ≤ n && n ≤ 0x200A) || n == 0x2028 || n == 0x2029 ||
  n == 0x202F || n == 0x205F || n == 0x3000

/-- Whitespace splitting of a character list, accumulating the current word
in reverse: the recursion behind Python's argumentless `str.split`, which
splits on runs of whitespace and produces no empty words. -/
def pySplitChars : List Char → List Char → List String
  | [], [] => []
  | [], acc => [String.mk acc.reverse]
  | c :: cs, acc =>
      if pySplitSpace c then
        if acc = [] then pySplitChars cs []
        else String.mk acc.reverse :: pySplitChars cs []
      else pySplitChars cs (c :: acc)

/-- Python's argumentless `str.split`. -/
def pySplit (s : String) : List String :=
  pySplitChars s.data []

/-- The characters of `cs` with leading and trailing whitespace removed, as
Python's `int()` strips its string argument. -/
def stripWs (cs : List Char) : List Char :=
  ((cs.dropWhile pyIntSpace).reverse.dropWhile pyIntSpace).reverse

/-- The contiguous runs of Unicode decimal digits (category `Nd`), the
digits Python's `int()` accepts, as (first code point, length) pairs in the
Unicode character database of the supported interpreters: every script's
digits sit in one zero-to-nine run, and the five mathematical digit
alphabets at U+1D7CE form one run of fifty, so a digit's value is its offset
in its run modulo ten. -/
def ndDigitRuns : List (Nat × Nat) :=
  [(0x30, 10), (0x660, 10), (0x6F0, 10), (0x7C0, 10), (0x966, 10), (0x9E6, 10),
   (0xA66, 10), (0xAE6, 10), (0xB66, 10), (0xBE6, 10), (0xC66, 10), (0xCE6, 10),
   (0xD66, 10), (0xDE6, 10), (0xE50, 10), (0xED0, 10), (0xF20, 10), (0x1040, 10),
   (0x1090, 10), (0x17E0, 10), (0x1810, 10), (0x1946, 10), (0x19D0, 10),
   (0x1A80, 10), (0x1A90, 10), (0x1B50, 10), (0x1BB0, 10), (0x1C40, 10),
   (0x1C50, 10), (0xA620, 10), (0xA8D0, 10), (0xA900, 10), (0xA9D0, 10),
   (0xA9F0, 10), (0xAA50, 10), (0xABF0, 10), (0xFF10, 10), (0x104A0, 10),
   (0x10D30, 10), (0x11066, 10), (0x110F0, 10), (0x11136, 10), (0x111D0, 10),
   (0x112F0, 10), (0x11450, 10), (0x114D0, 10), (0x11650, 10), (0x116C0, 10),
   (0x11730, 10), (0x118E0, 10), (0x11950, 10), (0x11C50, 10), (0x11D50, 10),
   (0x11DA0, 10), (0x16A60, 10), (0x16AC0, 10), (0x16B50, 10), (0x1D7CE, 50),
   (0x1E140, 10), (0x1E2F0, 10), (0x1E950, 10), (0x1FBF0, 10)]

/-- The decimal value of a character under Python's `int()`: any Unicode
decimal digit (category `Nd`) contributes its digit value; everything else
is no digit. -/
def pyDigitVal? (c : Char) : Option Nat :=
  let n := c.toNat
  match ndDigitRuns.find? (fun r => r.1 ≤ n && n < r.1 + r.2) with
  | some r => some ((n - r.1) % 10)
  | Option.none => Option.none

/-- The remaining digits of a numeral being read, extending the accumulated
value: a single underscore may separate two digits (Python's digit
grouping), so an underscore must be followed by a digit and two underscores
may not be adjacent. -/
def digitsRest (acc : Nat) : List Char → Option Nat
  | [] => some acc
  | '_' :: c :: cs =>
      match pyDigitVal? c with
      | some d => digitsRest (10 * acc + d) cs
      | Option.none => Option.none
  | c :: cs =>
      match pyDigitVal? c with
      | some d => digitsRest (10 * acc + d) cs
      | Option.none => Option.none

/-- A nonempty digit run with optional grouping underscores between digits:
it must begin with a digit (no leading underscore) and `digitsRest` rejects
a trailing one. -/
def digitsUnd? : List Char → Option Nat
  | [] => Option.none
  | c :: cs =>
      match pyDigitVal? c with
      | some d => digitsRest d cs
      | Option.none => Option.none

/-- The value of an optionally signed digit run, or nothing when the
characters are not of that shape. -/
def signedDigits? : List Char → Option Int
  | [] => Option.none
  | '+' :: cs => (digitsUnd? cs).map (fun n => (n : Int))
  | '-' :: cs => (digitsUnd? cs).map (fun n => -(n : Int))
  | cs => (digitsUnd? cs).map (fun n => (n : Int))

/-- Python's `int()` on a string: whitespace is stripped, then an optionally
signed run of decimal digits — any Unicode decimal digits, with optional
grouping underscores between digits — is read; any other shape raises
`ValueError` (`Option.none`). -/
def pyInt (s : String) : Option Int :=
  signedDigits? (stripWs s.data)

/-- The body of `analyser_commande` (pep634.py lines 49-60) after
`commande.split()`: first-match cascade over the token list.  The
`["add", x, y]` case computes `int(x) + int(y)`, which raises `ValueError`
when either token is not an integer literal. -/
def analyser_tokens : List String → PyResult String
  | ["quit"] => .ok "👋 Au revoir!"
  | ["hello", nom] => .ok ("👋 Bonjour " ++ nom ++ "!")
  | ["add", x, y] =>
      match pyInt x, pyInt y with
      | some a, some b => .ok ("➕ Résultat: " ++ toString (a + b))
      | _, _ => .exn
  | "send" :: destinataire :: message =>
      .ok ("📧 Envoi à " ++ destinataire ++ ": " ++ String.intercalate " " message)
  | _ => .ok "❓ Commande non reconnue"

/-- `analyser_commande` (pep634.py lines 49-60): split the command string on
whitespace and classify the token list. -/
def analyser_commande (commande : String) : PyResult String :=
  analyser_tokens (pySplit commande)

/-- `analyser_point` (pep634.py lines 85-98): first-match cascade over a
point.  The two-element sequence patterns `(0, 0)`, `(0, y)`, `(x, 0)` and
`(x, y)` apply only to two-element sequences (their literal `0` compares with
Python `==`), the pattern `(x, y, z)` to three-element sequences, and the
wildcard to everything else. -/
def analyser_point (point : PyVal) : String :=
  match point with
  | .seq [a, b] =>
      if pyEq a (.int 0) && pyEq b (.int 0) then "📍 Origine"
      else if pyEq a (.int 0) then "📍 Sur l\x27axe Y à y=" ++ pyStr b
      else if pyEq b (.int 0) then "📍 Sur l\x27axe X à x=" ++ pyStr a
      else "📍 Point quelconque (" ++ pyStr a ++ ", " ++ pyStr b ++ ")"
  | .seq [x, y, z] =>
      "📍 Point 3D (" ++ pyStr x ++ ", " ++ pyStr y ++ ", " ++ pyStr z ++ ")"
  | _ => "❌ Format invalide"

/-- First case of `traiter_requete` (pep634.py line 118):
`{"action": "login", "username": user, "password": pwd}`. -/
def tr_login (d : List (String × PyVal)) : Option String :=
  match dictGet d "action", dictGet d "username", dictGet d "password" with
  | some (.str "login"), some user, some _pwd => some ("🔐 Tentative de connexion: " ++ pyStr user)
  | _, _, _ => Option.none

/-- Second case of `traiter_requete` (pep634.py line 120):
`{"action": "signup", "email": email, **reste}`. -/
def tr_signup (d : List (String × PyVal)) : Option String :=
  match dictGet d "action", dictGet d "email" with
  | some (.str "signup"), some email => some ("📝 Inscription avec email: " ++ pyStr email)
  | _, _ => Option.none

/-- Third case of `traiter_requete` (pep634.py line 122):
`{"action": "order", "items": [premier, *autres]}` — the `items` value must
be a nonempty sequence. -/
def tr_order (d : List (String × PyVal)) : Option String :=
  match dictGet d "action", dictGet d "items" with
  | some (.str "order"), some (.seq (premier :: autres)) =>
      some ("🛒 Commande de " ++ toString (autres.length + 1) ++ " articles, premier: " ++ pyStr premier)
  | _, _ => Option.none

/-- Fourth case of `traiter_requete` (pep634.py line 124): `{"error": msg}`. -/
def tr_error (d : List (String × PyVal)) : Option String :=
  match dictGet d "error" with
  | some msg => some ("❌ Erreur: " ++ pyStr msg)
  | Option.none => Option.none

/-- `traiter_requete` (pep634.py lines 116-129): first-match cascade of the
four keyed mapping cases; the mapping pattern `{}` then matches every
remaining dictionary (PEP 634 mapping patterns ignore extra keys), and the
wildcard catches the non-dictionaries. -/
def traiter_requete (data : PyVal) : String :=
  match data with
  | .dict d => (tr_login d <|> tr_signup d <|> tr_order d <|> tr_error d).getD "📭 Requête vide"
  | _ => "❓ Format de requête inconnu"

/-- `classifier_age` (pep634.py lines 156-169): the five guarded cases share
the mapping pattern `{"nom": nom, "age": age}`; their guards `age < 0`,
`age < 13`, `age < 20`, `age < 60` are tried in order, an `age` that is not a
number (`int` or `bool`) makes the first guard raise `TypeError`, and values
without both keys fall to the wildcard. -/
def classifier_age (personne : PyVal) : PyResult String :=
  match personne with
  | .dict d =>
      match dictGet d "nom", dictGet d "age" with
      | some nom, some agev =>
          match pyNum? agev with
          | some age =>
              .ok (if age < 0 then "❌ Âge invalide pour " ++ pyStr nom
                   else if age < 13 then "👶 " ++ pyStr nom ++ " est un enfant"
                   else if age < 20 then "🧑 " ++ pyStr nom ++ " est adolescent"
                   else if age < 60 then "👨 " ++ pyStr nom ++ " est adulte"
                   else "👴 " ++ pyStr nom ++ " est senior")
          | Option.none => .exn
      | _, _ => .ok "❌ Format invalide"
  | _ => .ok "❌ Format invalide"

/-- The generic fallback result of `valider_inscription` (pep634.py line
316): `{"status": "error", "message": "❌ Données invalides"}`. -/
def vi_generic : PyVal :=
  .dict [("status", .str "error"), ("message", .str "❌ Données invalides")]

/-- First case of `valider_inscription` (pep634.py lines 286-297): all four
fields present as strings (`str()` class patterns) with the guard
`"@" in email and len(pwd) >= 8 and pwd == pwd_confirm`; `**extras` captures
the remaining entries and the result lists their keys, or `None` when there
are none. -/
def vi_complete (d : List (String × PyVal)) : Option PyVal :=
  match dictGet d "email", dictGet d "password", dictGet d "password_confirm", dictGet d "telephone" with
  | some (.str email), some (.str pwd), some (.str pwdConfirm), some (.str _tel) =>
      if strContainsChar email '@' && decide (8 ≤ pwd.length) && (pwd == pwdConfirm) then
        some (.dict [("status", .str "success"),
                     ("message", .str ("✅ Inscription valide pour " ++ email)),
                     ("extras",
                      let extras := dictRemove d ["email", "password", "password_confirm", "telephone"]
                      if extras.isEmpty then .noneV else .seq (extras.map (fun kv => .str kv.1)))])
      else Option.none
  | _, _, _, _ => Option.none

/-- Second case of `valider_inscription` (pep634.py line 300):
`{"email": email, **rest}` guarded by `"@" not in str(email)`. -/
def vi_badEmail (d : List (String × PyVal)) : Option PyVal :=
  match dictGet d "email" with
  | some email =>
      if !(strContainsChar (pyStr email) '@') then
        some (.dict [("status", .str "error"), ("field", .str "email"),
                     ("message", .str "❌ Email invalide")])
      else Option.none
  | Option.none => Option.none

/-- Third case of `valider_inscription` (pep634.py line 304):
`{"password": pwd, **rest}` guarded by `len(str(pwd)) < 8`. -/
def vi_shortPwd (d : List (String × PyVal)) : Option PyVal :=
  match dictGet d "password" with
  | some pwd =>
      if (pyStr pwd).length < 8 then
        some (.dict [("status", .str "error"), ("field", .str "password"),
                     ("message", .str "❌ Mot de passe trop court (min 8 caractères)")])
      else Option.none
  | Option.none => Option.none

/-- Fourth case of `valider_inscription` (pep634.py line 308):
`{"password": pwd, "password_confirm": confirm, **rest}` guarded by
`pwd != confirm`. -/
def vi_mismatch (d : List (String × PyVal)) : Option PyVal :=
  match dictGet d "password", dictGet d "password_confirm" with
  | some pwd, some confirm =>
      if !(pyEq pwd confirm) then
        some (.dict [("status", .str "error"), ("field", .str "password_confirm"),
                     ("message", .str "❌ Les mots de passe ne correspondent pas")])
      else Option.none
  | _, _ => Option.none

/-- Fifth case of `valider_inscription` (pep634.py line 312):
`{"email": _}`. -/
def vi_missing (d : List (String × PyVal)) : Option PyVal :=
  match dictGet d "email" with
  | some _ => some (.dict [("status", .str "error"), ("message", .str "❌ Champs manquants")])
  | Option.none => Option.none

/-- `valider_inscription` (pep634.py lines 282-316): first-match cascade of
the five dictionary cases, with the wildcard returning the generic
invalid-data result for the dictionaries matching no earlier case and for
the non-dictionaries. -/
def valider_inscription (data : PyVal) : PyVal :=
  match data with
  | .dict d =>
      (vi_complete d <|> vi_badEmail d <|> vi_shortPwd d <|> vi_mismatch d <|> vi_missing d).getD
        vi_generic
  | _ => vi_generic

/-- The characters before the first `=` and the characters after it:
Python's `setting.split("=", 1)` for a string the guard has checked to
contain `"="`. -/
def splitOnceAtEq : List Char → List Char × List Char
  | [] => ([], [])
  | c :: cs =>
      if c = '=' then ([], cs)
      else
        let r := splitOnceAtEq cs
        (c :: r.1, r.2)

/-- Case `["help"] | ["-h"] | ["--help"]` of `executer_commande` (pep634.py
line 354): a one-element sequence whose element `==` one of the three
literals (PEP 634 literal patterns compare with `==`). -/
def ec_help (l : List PyVal) : Option (PyResult String) :=
  match l with
  | [v] =>
      if pyEq v (.str "help") || pyEq v (.str "-h") || pyEq v (.str "--help") then
        some (.ok "📖 Affichage de l\x27aide...")
      else Option.none
  | _ => Option.none

/-- Case `["version"] | ["-v"]` of `executer_commande` (pep634.py line 357). -/
def ec_version (l : List PyVal) : Option (PyResult String) :=
  match l with
  | [v] =>
      if pyEq v (.str "version") || pyEq v (.str "-v") then some (.ok "📦 Version 1.0.0")
      else Option.none
  | _ => Option.none

/-- Case `["project", "create", nom]` of `executer_commande` (pep634.py
line 361). -/
def ec_project_create (l : List PyVal) : Option (PyResult String) :=
  match l with
  | [a, b, nom] =>
      if pyEq a (.str "project") && pyEq b (.str "create") then
        some (.ok ("🆕 Création du projet \x27" ++ pyStr nom ++ "\x27"))
      else Option.none
  | _ => Option.none

/-- Case `["project", "delete", nom, "--force"]` of `executer_commande`
(pep634.py line 364). -/
def ec_project_delete (l : List PyVal) : Option (PyResult String) :=
  match l with
  | [a, b, nom, c] =>
      if pyEq a (.str "project") && pyEq b (.str "delete") && pyEq c (.str "--force") then
        some (.ok ("🗑️ Suppression forcée du projet \x27" ++ pyStr nom ++ "\x27"))
      else Option.none
  | _ => Option.none

/-- Case `["project", "list"]` of `executer_commande` (pep634.py line 367). -/
def ec_project_list (l : List PyVal) : Option (PyResult String) :=
  match l with
  | [a, b] =>
      if pyEq a (.str "project") && pyEq b (.str "list") then
        some (.ok "📋 Liste des projets...")
      else Option.none
  | _ => Option.none

/-- Case `["file", "upload", *fichiers, "--to", destination]` of
`executer_commande` (pep634.py line 371): a sequence of length at least four
whose last-but-one element `==` `"--to"`, checked on the reversed tail. -/
def ec_file_upload_to (l : List PyVal) : Option (PyResult String) :=
  match l with
  | a :: b :: rest =>
      if pyEq a (.str "file") && pyEq b (.str "upload") then
        match rest.reverse with
        | destination :: sep :: revFichiers =>
            if pyEq sep (.str "--to") then
              some (.ok ("📤 Upload de " ++ toString revFichiers.length ++
                         " fichier(s) vers " ++ pyStr destination))
            else Option.none
        | _ => Option.none
      else Option.none
  | _ => Option.none

/-- Case `["file", "upload", *fichiers] if fichiers` of `executer_commande`
(pep634.py line 374): the guard requires at least one captured file. -/
def ec_file_upload (l : List PyVal) : Option (PyResult String) :=
  match l with
  | a :: b :: rest =>
      if pyEq a (.str "file") && pyEq b (.str "upload") && !rest.isEmpty then
        some (.ok ("📤 Upload de " ++ toString rest.length ++ " fichier(s) vers ./uploads/"))
      else Option.none
  | _ => Option.none

/-- Case `["user", "add", email] if "@" in email` of `executer_commande`
(pep634.py line 378): when the membership test `"@" in email` raises
`TypeError` (an `email` that is no string, sequence or dictionary), the
whole call raises. -/
def ec_user_add (l : List PyVal) : Option (PyResult String) :=
  match l with
  | [a, b, email] =>
      if pyEq a (.str "user") && pyEq b (.str "add") then
        match pyContainsChar email '@' with
        | some true => some (.ok ("👤 Ajout de l\x27utilisateur " ++ pyStr email))
        | some false => Option.none
        | Option.none => some .exn
      else Option.none
  | _ => Option.none

/-- Case `["user", "add", _]` of `executer_commande` (pep634.py line 381),
reached when the previous case's guard was false. -/
def ec_user_add_bad (l : List PyVal) : Option (PyResult String) :=
  match l with
  | [a, b, _] =>
      if pyEq a (.str "user") && pyEq b (.str "add") then some (.ok "❌ Email invalide")
      else Option.none
  | _ => Option.none

/-- Case `["config", "set", setting] if "=" in setting` of
`executer_commande` (pep634.py line 385): a failing membership test raises
`TypeError` for a `setting` supporting no membership, and when the guard
holds the body calls `setting.split("=", 1)`, which raises `AttributeError`
unless `setting` is a string. -/
def ec_config_set (l : List PyVal) : Option (PyResult String) :=
  match l with
  | [a, b, setting] =>
      if pyEq a (.str "config") && pyEq b (.str "set") then
        match pyContainsChar setting '=' with
        | some true =>
            match setting with
            | .str s =>
                let kv := splitOnceAtEq s.data
                some (.ok ("⚙️ Configuration: " ++ String.mk kv.1 ++ " = " ++ String.mk kv.2))
            | _ => some .exn
        | some false => Option.none
        | Option.none => some .exn
      else Option.none
  | _ => Option.none

/-- Case `[]` of `executer_commande` (pep634.py line 389). -/
def ec_empty (l : List PyVal) : Option (PyResult String) :=
  match l with
  | [] => some (.ok "💡 Tapez \x27help\x27 pour voir les commandes disponibles")
  | _ => Option.none

/-- Case `[cmd, *_]` of `executer_commande` (pep634.py line 392): any
nonempty sequence. -/
def ec_unknown (l : List PyVal) : Option (PyResult String) :=
  match l with
  | cmd :: _ => some (.ok ("❌ Commande inconnue: " ++ pyStr cmd))
  | [] => Option.none

/-- The ordered case list of `executer_commande` over a sequence argument:
first match wins. -/
def executer_commande_list (l : List PyVal) : Option (PyResult String) :=
  ec_help l <|> ec_version l <|> ec_project_create l <|> ec_project_delete l <|>
  ec_project_list l <|> ec_file_upload_to l <|> ec_file_upload l <|> ec_user_add l <|>
  ec_user_add_bad l <|> ec_config_set l <|> ec_empty l <|> ec_unknown l

/-- `executer_commande` (pep634.py lines 350-393): every case is a sequence
pattern (or `[]`), so a non-sequence argument matches no case, and a `match`
statement with no matching case does nothing — the function returns `None`. -/
def executer_commande (args : PyVal) : PyResult String :=
  match args with
  | .seq l => (executer_commande_list l).getD .noneRet
  | _ => .noneRet

/-- Python's `<` on tuples of numbers, lexicographic with the shorter tuple
smaller when it is a strict prefix: the comparison
`sys.version_info < (3, 10)` of pep634.py line 471. -/
def pyTupleLt : List Nat → List Nat → Bool
  | _, [] => false
  | [], _ :: _ => true
  | x :: xs, y :: ys => if x < y then true else if y < x then false else pyTupleLt xs ys

/-- The `__main__` block of pep634.py (lines 460-491), as a function of the
running interpreter's `sys.version_info` (its numeric components): the
process exit status, whether the version-check diagnostic was printed, and
whether the ten demonstrations were run.  A version below `(3, 10)` prints
the diagnostic and exits with status 1 via `sys.exit(1)`; otherwise every
demonstration runs and the script falls off the end, exiting 0. -/
def main_run (version_info : List Nat) : Nat × Bool × Bool :=
  if pyTupleLt version_info [3, 10] then (1, true, false) else (0, false, true)

/-- `traiter_requete` evaluated in a state monad holding its argument: the
source body only reads `data` (key lookups and destructuring), so the
embedding reads the state and never writes it. -/
def traiter_requeteSt : StateM PyVal String := do
  let data ← get
  pure (traiter_requete data)

/-- `valider_inscription` evaluated in a state monad holding its argument:
the source body only reads `data` (key lookups, guards and fresh result
dictionaries), so the embedding reads the state and never writes it. -/
def valider_inscriptionSt : StateM PyVal PyVal := do
  let data ← get
  pure (valider_inscription data)

/-- C4: `get_status_message` maps the listed code 200 to the success message
and the unlisted code 418 to the wildcard fallback naming the code. -/
theorem get_status_message_200_and_418 :
    get_status_message 200 = "✅ OK - Succès" ∧
    get_status_message 418 = "❓ Code inconnu: 418" :=
  ⟨rfl, rfl⟩

/-- C5: `analyser_point` maps the point `(0, 0)` to the origin message and
the point `(3, 0)` to the x-axis message. -/
theorem analyser_point_origin_and_x_axis :
    analyser_point (.seq [.int 0, .int 0]) = "📍 Origine" ∧
    analyser_point (.seq [.int 3, .int 0]) = "📍 Sur l\x27axe X à x=3" :=
  ⟨rfl, rfl⟩

/-- C10: the two-element patterns of `analyser_point` do not shadow the
three-element one: every three-element sequence — whatever its components,
zero or not — is classified as a 3D point. -/
theorem analyser_point_three_element_tuple (x y z : PyVal) :
    analyser_point (.seq [x, y, z]) =
      "📍 Point 3D (" ++ pyStr x ++ ", " ++ pyStr y ++ ", " ++ pyStr z ++ ")" :=
  rfl

/-- C6: `executer_commande` maps `["project", "create", nom]` to the
project-creation message for any project name, and the empty argument list
to the help hint. -/
theorem executer_commande_project_create_and_empty (nom : PyVal) :
    executer_commande (.seq [.str "project", .str "create", nom]) =
      .ok ("🆕 Création du projet \x27" ++ pyStr nom ++ "\x27") ∧
    executer_commande (.seq []) = .ok "💡 Tapez \x27help\x27 pour voir les commandes disponibles" :=
  ⟨rfl, rfl⟩

/-- C8: the classifiers do not mutate their input: evaluating
`traiter_requete` or `valider_inscription` in a state monad holding the
argument value leaves that value unchanged (their bodies only read it). -/
theorem classifiers_do_not_mutate_input (v : PyVal) :
    (traiter_requeteSt.run v).2 = v ∧ (valider_inscriptionSt.run v).2 = v :=
  ⟨rfl, rfl⟩

/-- C1 counterexample: applied to a value matched by no listed case — here
the integer 7, which no sequence pattern matches — `executer_commande`
returns Python's implicit `None`, not a message. -/
theorem executer_commande_non_sequence_no_message :
    executer_commande (.int 7) = .noneRet :=
  rfl

/-- C2 counterexample: on the string input `"add a b"` the case
`["add", x, y]` matches and its body evaluates `int("a")`, which raises
`ValueError`; `analyser_commande` does not return a string there. -/
theorem analyser_commande_add_nonint_raises :
    analyser_commande "add a b" = .exn :=
  rfl
/-- C3: the script exits with status 1, printing the diagnostic and running
no demonstration, exactly when the interpreter version is below 3.10; on any
other version it runs all demonstrations and exits 0. -/
theorem main_exit_iff_version_below_3_10 (major minor micro : Nat) :
    (main_run [major, minor, micro] = (1, true, false) ↔
      major < 3 ∨ (major = 3 ∧ minor < 10)) ∧
    (main_run [major, minor, micro] = (0, false, true) ↔
      ¬(major < 3 ∨ (major = 3 ∧ minor < 10))) := by
  simp only [main_run, pyTupleLt]
  constructor <;> split_ifs <;> simp_all <;> omega

/-- C7: a dictionary payload containing none of the keys `email`,
`password`, `password_confirm`, `telephone` falls past every specific case
of `valider_inscription` to the wildcard, which returns the generic
invalid-data error result. -/
theorem valider_inscription_missing_all_keys (d : List (String × PyVal))
    (he : dictGet d "email" = Option.none)
    (hp : dictGet d "password" = Option.none)
    (hc : dictGet d "password_confirm" = Option.none)
    (ht : dictGet d "telephone" = Option.none) :
    valider_inscription (.dict d) =
      .dict [("status", .str "error"), ("message", .str "❌ Données invalides")] := by
  simp [valider_inscription, vi_complete, vi_badEmail, vi_shortPwd, vi_mismatch, vi_missing,
    vi_generic, he, hp, hc, ht]

/-- C7 witness: a concrete payload without any required key gets the generic
invalid-data error. -/
theorem valider_inscription_missing_all_keys_witness :
    valider_inscription (.dict [("newsletter", .bool true)]) =
      .dict [("status", .str "error"), ("message", .str "❌ Données invalides")] :=
  valider_inscription_missing_all_keys [("newsletter", .bool true)] rfl rfl rfl rfl

/-- C9: for a dictionary with keys `nom` and `age` (the age an integer),
`classifier_age` realizes the five-way partition of the integers: negative
ages are invalid, `0 ≤ age < 13` is a child, `13 ≤ age < 20` an adolescent,
`20 ≤ age < 60` an adult, and `60 ≤ age` a senior; each guarded case that
fails its guard falls through to the later ones. -/
theorem classifier_age_partitions_ages (d : List (String × PyVal)) (nom : PyVal) (age : Int)
    (hn : dictGet d "nom" = some nom) (ha : dictGet d "age" = some (.int age)) :
    (age < 0 → classifier_age (.dict d) = .ok ("❌ Âge invalide pour " ++ pyStr nom)) ∧
    (0 ≤ age ∧ age < 13 →
      classifier_age (.dict d) = .ok ("👶 " ++ pyStr nom ++ " est un enfant")) ∧
    (13 ≤ age ∧ age < 20 →
      classifier_age (.dict d) = .ok ("🧑 " ++ pyStr nom ++ " est adolescent")) ∧
    (20 ≤ age ∧ age < 60 →
      classifier_age (.dict d) = .ok ("👨 " ++ pyStr nom ++ " est adulte")) ∧
    (60 ≤ age → classifier_age (.dict d) = .ok ("👴 " ++ pyStr nom ++ " est senior")) := by
  simp only [classifier_age, hn, ha, pyNum?]
  refine ⟨fun h => ?_, fun h => ?_, fun h => ?_, fun h => ?_, fun h => ?_⟩
  · rw [if_pos h]
  · rw [if_neg (by omega), if_pos (by omega)]
  · rw [if_neg (by omega), if_neg (by omega), if_pos (by omega)]
  · rw [if_neg (by omega), if_neg (by omega), if_neg (by omega), if_pos (by omega)]
  · rw [if_neg (by omega), if_neg (by omega), if_neg (by omega), if_neg (by omega)]

/-- C9 witness: the concrete person aged 8 is classified as a child. -/
theorem classifier_age_partitions_ages_witness :
    classifier_age (.dict [("nom", .str "Amadou"), ("age", .int 8)]) =
      .ok "👶 Amadou est un enfant" :=
  (classifier_age_partitions_ages [("nom", .str "Amadou"), ("age", .int 8)]
    (.str "Amadou") 8 rfl rfl).2.1 (by omega)


/-- An optional case outcome that, when it selects, returns a message. -/
def okOnly (o : Option (PyResult String)) : Prop :=
  ∀ r, o = some r → ∃ m, r = PyResult.ok m

theorem okOnly_orElse {a b : Option (PyResult String)} (ha : okOnly a) (hb : okOnly b) :
    okOnly (a <|> b) := by
  intro r h
  cases ha' : a with
  | none => rw [ha', Option.none_orElse] at h; exact hb r h
  | some x => rw [ha', Option.some_orElse] at h; exact ha r (ha' ▸ h)

theorem isSome_orElse_right {α : Type} {a b : Option α} (hb : b.isSome) :
    (a <|> b).isSome := by
  cases a <;> simp_all

theorem ec_help_okOnly (l : List PyVal) : okOnly (ec_help l) := by
  intro r h
  unfold ec_help at h
  repeat' split at h
  all_goals try simp_all
  all_goals exact ⟨_, h.symm⟩

theorem ec_version_okOnly (l : List PyVal) : okOnly (ec_version l) := by
  intro r h
  unfold ec_version at h
  repeat' split at h
  all_goals try simp_all
  all_goals exact ⟨_, h.symm⟩

theorem ec_project_create_okOnly (l : List PyVal) : okOnly (ec_project_create l) := by
  intro r h
  unfold ec_project_create at h
  repeat' split at h
  all_goals try simp_all
  all_goals exact ⟨_, h.symm⟩

theorem ec_project_delete_okOnly (l : List PyVal) : okOnly (ec_project_delete l) := by
  intro r h
  unfold ec_project_delete at h
  repeat' split at h
  all_goals try simp_all
  all_goals exact ⟨_, h.symm⟩

theorem ec_project_list_okOnly (l : List PyVal) : okOnly (ec_project_list l) := by
  intro r h
  unfold ec_project_list at h
  repeat' split at h
  all_goals try simp_all
  all_goals exact ⟨_, h.symm⟩

theorem ec_file_upload_to_okOnly (l : List PyVal) : okOnly (ec_file_upload_to l) := by
  intro r h
  unfold ec_file_upload_to at h
  repeat' split at h
  all_goals try simp_all
  all_goals exact ⟨_, h.symm⟩

theorem ec_file_upload_okOnly (l : List PyVal) : okOnly (ec_file_upload l) := by
  intro r h
  unfold ec_file_upload at h
  repeat' split at h
  all_goals try simp_all
  all_goals exact ⟨_, h.symm⟩

theorem ec_user_add_bad_okOnly (l : List PyVal) : okOnly (ec_user_add_bad l) := by
  intro r h
  unfold ec_user_add_bad at h
  repeat' split at h
  all_goals try simp_all
  all_goals exact ⟨_, h.symm⟩

theorem ec_empty_okOnly (l : List PyVal) : okOnly (ec_empty l) := by
  intro r h
  unfold ec_empty at h
  repeat' split at h
  all_goals try simp_all
  all_goals exact ⟨_, h.symm⟩

theorem ec_unknown_okOnly (l : List PyVal) : okOnly (ec_unknown l) := by
  intro r h
  unfold ec_unknown at h
  repeat' split at h
  all_goals try simp_all
  all_goals exact ⟨_, h.symm⟩

theorem ec_user_add_str_okOnly (ss : List String) : okOnly (ec_user_add (ss.map PyVal.str)) := by
  intro r h
  rcases ss with _ | ⟨s1, _ | ⟨s2, _ | ⟨s3, _ | ⟨s4, t⟩⟩⟩⟩
  · exact Option.noConfusion h
  · exact Option.noConfusion h
  · exact Option.noConfusion h
  · simp only [List.map, ec_user_add, pyContainsChar] at h
    repeat' split at h
    all_goals try simp_all
    all_goals exact ⟨_, h.symm⟩
  · exact Option.noConfusion h

theorem ec_config_set_str_okOnly (ss : List String) :
    okOnly (ec_config_set (ss.map PyVal.str)) := by
  intro r h
  rcases ss with _ | ⟨s1, _ | ⟨s2, _ | ⟨s3, _ | ⟨s4, t⟩⟩⟩⟩
  · exact Option.noConfusion h
  · exact Option.noConfusion h
  · exact Option.noConfusion h
  · simp only [List.map, ec_config_set, pyContainsChar] at h
    repeat' split at h
    all_goals try simp_all
    all_goals exact ⟨_, h.symm⟩
  · exact Option.noConfusion h

theorem executer_commande_list_str_okOnly (ss : List String) :
    okOnly (executer_commande_list (ss.map PyVal.str)) := by
  unfold executer_commande_list
  exact okOnly_orElse (ec_help_okOnly _) (okOnly_orElse (ec_version_okOnly _)
    (okOnly_orElse (ec_project_create_okOnly _) (okOnly_orElse (ec_project_delete_okOnly _)
    (okOnly_orElse (ec_project_list_okOnly _) (okOnly_orElse (ec_file_upload_to_okOnly _)
    (okOnly_orElse (ec_file_upload_okOnly _) (okOnly_orElse (ec_user_add_str_okOnly ss)
    (okOnly_orElse (ec_user_add_bad_okOnly _) (okOnly_orElse (ec_config_set_str_okOnly ss)
    (okOnly_orElse (ec_empty_okOnly _) (ec_unknown_okOnly _)))))))))))

theorem executer_commande_list_isSome (l : List PyVal) :
    (executer_commande_list l).isSome := by
  rcases l with _ | ⟨c, t⟩
  · rfl
  · unfold executer_commande_list
    refine isSome_orElse_right (isSome_orElse_right (isSome_orElse_right
      (isSome_orElse_right (isSome_orElse_right (isSome_orElse_right
      (isSome_orElse_right (isSome_orElse_right (isSome_orElse_right
      (isSome_orElse_right (isSome_orElse_right ?_))))))))))
    rfl

/-- C1 amended: on every list of strings — the argument shape the CLI parser
receives — `executer_commande` returns a message: the empty list hits the
`[]` case and any nonempty list is caught at the latest by the final
`[cmd, *_]` case. -/
theorem executer_commande_total_on_string_lists (args : List String) :
    ∃ m, executer_commande (.seq (args.map PyVal.str)) = .ok m := by
  have hs := executer_commande_list_isSome (args.map PyVal.str)
  rcases ho : executer_commande_list (args.map PyVal.str) with _ | r
  · rw [ho] at hs; simp at hs
  · rcases executer_commande_list_str_okOnly args r ho with ⟨m, rfl⟩
    exact ⟨m, by simp [executer_commande, ho]⟩

theorem analyser_tokens_ne_noneRet (ts : List String) : analyser_tokens ts ≠ .noneRet := by
  unfold analyser_tokens
  split <;> try simp
  split <;> simp

theorem analyser_tokens_exn_iff (ts : List String) :
    analyser_tokens ts = .exn ↔
      ∃ x y, ts = ["add", x, y] ∧ (pyInt x = Option.none ∨ pyInt y = Option.none) := by
  constructor
  · intro h
    unfold analyser_tokens at h
    split at h <;> try simp at h
    next x y =>
      refine ⟨x, y, rfl, ?_⟩
      split at h
      · simp at h
      · next hab =>
        rcases hx : pyInt x with _ | a
        · exact Or.inl rfl
        · rcases hy : pyInt y with _ | b
          · exact Or.inr rfl
          · exact absurd hy (hab a b hx)
  · rintro ⟨x, y, rfl, hxy⟩
    unfold analyser_tokens
    rcases hxy with h | h
    · simp [h]
    · rcases hx : pyInt x with _ | a <;> simp [hx, h]

/-- C2 amended: for every string input `analyser_commande` returns a string,
except exactly when the command splits into `["add", x, y]` with `x` or `y`
not an integer literal, where `int()` raises `ValueError`; it never falls
off its `match` (the wildcard case answers everything else). -/
theorem analyser_commande_string_unless_add_nonint (s : String) :
    (analyser_commande s = .exn ↔
      ∃ x y, pySplit s = ["add", x, y] ∧ (pyInt x = Option.none ∨ pyInt y = Option.none)) ∧
    (analyser_commande s ≠ .exn → ∃ m, analyser_commande s = .ok m) := by
  refine ⟨analyser_tokens_exn_iff (pySplit s), fun hne => ?_⟩
  rcases h : analyser_tokens (pySplit s) with m | _ | _
  · exact ⟨m, h⟩
  · exact absurd h (analyser_tokens_ne_noneRet _)
  · exact absurd h hne
